import Mathlib

/-
Verification of the xbuild artifact-acquisition core against its code.

The development shallowly embeds the relevant parts of
`xbuild/src/download.rs` and `xbuild/src/flutter/mod.rs`.  Filesystem
paths are component lists (`FsPath`); the on-disk state touched by the
fetcher is an association list from paths to node kinds; fallible
sub-operations (network download, per-entry tar unpacking, zip
extraction) are driven by explicit oracles recording whether each
underlying operation succeeds, so that every control path of the Rust
code is represented.  Definitions follow the source; spec-modelled
definitions (for items of the crate root that is not among the provided
sources) are marked in their doc comments.
-/

set_option autoImplicit false

/-- A filesystem path, as its list of components.  `PathBuf::join` of a
single-component name appends one component. -/
abbrev FsPath := List String

/-- Kind of an on-disk node, as far as the fetcher observes it. -/
inductive NodeKind
  | file
  | dir
  | symlink
  deriving DecidableEq

/-- The mutable on-disk state: an association list from paths to node
kinds; the most recent entry for a path wins. -/
abbrev FsState := List (FsPath × NodeKind)

/-- Embeds `Path::exists` on the modelled state. -/
def existsPath (fs : FsState) (p : FsPath) : Bool :=
  fs.any (fun e => e.1 == p)

/-- Embeds `Path::is_dir` on the modelled state. -/
def isDirFS (fs : FsState) (p : FsPath) : Bool :=
  match fs.find? (fun e => e.1 == p) with
  | some e => e.2 == NodeKind.dir
  | none => false

/-- Creating a node on disk (covers `File::create`, `create_dir_all`,
and tar entry unpacking). -/
def insertNode (fs : FsState) (p : FsPath) (k : NodeKind) : FsState :=
  (p, k) :: fs

/-- Embeds `Path::parent` (the fetch paths always have a parent). -/
def parentDir (p : FsPath) : FsPath := p.dropLast

/-- Observable side effects performed by a fetch. -/
inductive FsEvent
  | download (url : String) (dest : FsPath)
  | unpack (p : FsPath)
  | unzip (archive : FsPath) (dest : FsPath)
  | removeDirAll (p : FsPath)
  | removeFile (p : FsPath)
  deriving DecidableEq

/-- Embeds `str::rsplit_once` from the Rust standard library, on char lists:
split at the last occurrence of the delimiter, `none` when absent. -/
def rsplitOnceAux : List Char → Char → Option (List Char × List Char)
  | [], _ => none
  | x :: xs, c =>
    match rsplitOnceAux xs c with
    | some (l, r) => some (x :: l, r)
    | none => if x = c then some ([], xs) else none

/-- Embeds `str::rsplit_once` on strings (used on `item.url` at download.rs:69). -/
def rsplitOnce (s : String) (c : Char) : Option (String × String) :=
  (rsplitOnceAux s.toList c).map (fun lr => (String.mk lr.1, String.mk lr.2))

/-- Embeds `str::ends_with`, via character lists. -/
def strEndsWith (s suffixStr : String) : Bool :=
  suffixStr.toList.isSuffixOf s.toList

/-- A fetch request, `WorkItem` from download.rs:156-161. -/
structure WorkItem where
  url : String
  output : FsPath
  noSymlinks : Bool
  noColons : Bool
  deriving DecidableEq

/-- Embeds `WorkItem::new` (download.rs:164-171). -/
def WorkItem.new (output : FsPath) (url : String) : WorkItem :=
  ⟨url, output, false, false⟩

/-- The `no_symlinks` builder (download.rs:176-179). -/
def WorkItem.no_symlinks (w : WorkItem) : WorkItem :=
  { w with noSymlinks := true }

/-- The `no_colons` builder (download.rs:184-187). -/
def WorkItem.no_colons (w : WorkItem) : WorkItem :=
  { w with noColons := true }

/-- Embeds `WorkItem::github_release` (download.rs:191-205). -/
def WorkItem.github_release (output : FsPath) (org name version artifact : String) :
    WorkItem :=
  WorkItem.new output
    ("https://github.com/" ++ org ++ "/" ++ name ++ "/releases/download/" ++
      version ++ "/" ++ artifact)

/-- Kind of a tar archive entry (`tar::EntryType`, as far as the filter
at download.rs:80 distinguishes it). -/
inductive EntryType
  | regular
  | directory
  | symlink
  deriving DecidableEq

/-- One entry of a `.tar.zst` archive, together with the oracle bits
saying whether reading it (`entry?`) and unpacking it (`unpack_in`)
succeed. -/
structure TarEntry where
  readOk : Bool
  entryType : EntryType
  path : FsPath
  unpackOk : Bool
  deriving DecidableEq

/-- Node kind created by unpacking a tar entry. -/
def NodeKind.ofEntry : EntryType → NodeKind
  | .regular => .file
  | .directory => .dir
  | .symlink => .symlink

/-- Oracle for one blocking GET: whether the response status is a
success, and whether streaming the body to disk succeeds. -/
structure DlEnv where
  status : Bool
  copyOk : Bool
  deriving DecidableEq

/-- Oracle for everything the environment decides during a fetch: the
download outcome, the contents of a tar archive, and the outcomes and
produced trees of the up to two zip extractions. -/
structure FetchEnv where
  dl : DlEnv
  tarEntries : List TarEntry
  zip1Ok : Bool
  zip2Ok : Bool
  zip1Produces : List (FsPath × NodeKind)
  zip2Produces : List (FsPath × NodeKind)
  deriving DecidableEq

/-- Embeds `DownloadManager` (download.rs:12-15); only the cache directory that
`env.cache_dir()` returns is relevant to the embedded operations. -/
structure DownloadManager where
  cacheDir : FsPath
  deriving DecidableEq

/-- Embeds `DownloadManager::download` (download.rs:18-44): check the status,
create the destination file, stream the body.  A failed status leaves
the state unchanged; a failed body copy leaves the partially written
destination file behind. -/
def download (e : DlEnv) (fs : FsState) (url : String) (dest : FsPath) :
    FsState × Bool × List FsEvent :=
  if e.status = false then (fs, false, [FsEvent.download url dest])
  else (insertNode fs dest NodeKind.file, e.copyOk, [FsEvent.download url dest])

/-- The entry loop of the `.tar.zst` branch (download.rs:78-87): per
entry, a failed read aborts; a symlink entry is skipped when
`no_symlinks` is set; an entry whose path contains a colon is skipped
when `no_colons` is set; otherwise the entry is unpacked under `dest`
(aborting if unpacking fails). -/
def extractEntries (item : WorkItem) (dest : FsPath) :
    List TarEntry → FsState → FsState × Bool × List FsEvent
  | [], fs => (fs, true, [])
  | e :: rest, fs =>
    if e.readOk = false then (fs, false, [])
    else if item.noSymlinks && (e.entryType == EntryType.symlink) then
      extractEntries item dest rest fs
    else if item.noColons && e.path.any (fun s => s.contains ':') then
      extractEntries item dest rest fs
    else if e.unpackOk = false then (fs, false, [])
    else
      let r := extractEntries item dest rest
        (insertNode fs (dest ++ e.path) (NodeKind.ofEntry e.entryType))
      (r.1, r.2.1, FsEvent.unpack (dest ++ e.path) :: r.2.2)

/-- Embeds `xcommon::extract_zip`: on success the target directory and the
oracle-given produced tree appear under it. -/
def extractZip (ok : Bool) (produces : List (FsPath × NodeKind)) (fs : FsState)
    (archive dest : FsPath) : FsState × Bool × List FsEvent :=
  if ok then
    (produces.foldl (fun acc pk => insertNode acc (dest ++ pk.1) pk.2)
        (insertNode fs dest NodeKind.dir),
      true, [FsEvent.unzip archive dest])
  else (fs, false, [FsEvent.unzip archive dest])

/-- The fallible closure inside `fetch` (download.rs:70-105), dispatching
on the file-extension convention of the url's basename. -/
def fetchInner (mgr : DownloadManager) (env : FetchEnv) (fs : FsState)
    (item : WorkItem) (name : String) : FsState × Bool × List FsEvent :=
  if strEndsWith name ".tar.zst" then
    let d := download env.dl fs item.url (mgr.cacheDir ++ ["download", name])
    if d.2.1 = false then d
    else
      let r := extractEntries item (parentDir item.output) env.tarEntries
        (insertNode d.1 (parentDir item.output) NodeKind.dir)
      (r.1, r.2.1, d.2.2 ++ r.2.2)
  else if strEndsWith name ".framework.zip" then
    let d := download env.dl fs item.url (mgr.cacheDir ++ ["download", name])
    if d.2.1 = false then d
    else
      let z1 := extractZip env.zip1Ok env.zip1Produces d.1
        (mgr.cacheDir ++ ["download", name]) (mgr.cacheDir ++ ["download", "framework"])
      if z1.2.1 = false then (z1.1, false, d.2.2 ++ z1.2.2)
      else
        let z2 := extractZip env.zip2Ok env.zip2Produces
          (insertNode z1.1 item.output NodeKind.dir)
          (mgr.cacheDir ++ ["download", "framework", name]) item.output
        (z2.1, z2.2.1, d.2.2 ++ z1.2.2 ++ z2.2.2)
  else if strEndsWith name ".zip" then
    let d := download env.dl fs item.url (mgr.cacheDir ++ ["download", name])
    if d.2.1 = false then d
    else
      let z := extractZip env.zip1Ok env.zip1Produces d.1
        (mgr.cacheDir ++ ["download", name]) (parentDir item.output)
      (z.1, z.2.1, d.2.2 ++ z.2.2)
  else
    download env.dl fs item.url item.output

/-- The cleanup step of `fetch` (download.rs:106-112): if the target
output exists as a directory remove it recursively, otherwise remove it
as a file.  Removal always succeeds in the model (the source discards a
removal failure with `.ok()`). -/
def removeOutput (fs : FsState) (p : FsPath) : FsState × List FsEvent :=
  if isDirFS fs p then
    (fs.filter (fun e => !(List.isPrefixOf p e.1)), [FsEvent.removeDirAll p])
  else
    (fs.filter (fun e => !(e.1 == p)), [FsEvent.removeFile p])

/-- Outcome of a call to `fetch`: normal success, a propagated error, or
a Rust panic. -/
inductive FRes
  | ok
  | error
  | panicked
  deriving DecidableEq

/-- Result of a fetch: outcome, final on-disk state, and the performed
side effects in order. -/
structure FetchOut where
  result : FRes
  fs : FsState
  trace : List FsEvent
  deriving DecidableEq

/-- The tail of `fetch` (download.rs:106-113): on an inner error run the
cleanup, then propagate the result. -/
def finishFetch (item : WorkItem) (r : FsState × Bool × List FsEvent) : FetchOut :=
  if r.2.1 then ⟨FRes.ok, r.1, r.2.2⟩
  else
    let c := removeOutput r.1 item.output
    ⟨FRes.error, c.1, r.2.2 ++ c.2⟩

/-- Embeds `DownloadManager::fetch` (download.rs:65-114).  An existing output
returns success immediately; the basename is taken by `rsplit_once`
whose `unwrap` panics when the url has no slash; otherwise the inner
closure runs and an inner error triggers cleanup. -/
def fetch (mgr : DownloadManager) (env : FetchEnv) (fs : FsState)
    (item : WorkItem) : FetchOut :=
  if existsPath fs item.output then ⟨FRes.ok, fs, []⟩
  else
    match rsplitOnce item.url '/' with
    | none => ⟨FRes.panicked, fs, []⟩
    | some pr => finishFetch item (fetchInner mgr env fs item pr.2)

/-- Modelled from the spec: the Platform enumeration of the crate root
(which is not among the provided sources); a closed enumeration
Linux, Windows, Macos, Android, Ios. -/
inductive Platform
  | Linux
  | Windows
  | Macos
  | Android
  | Ios
  deriving DecidableEq

/-- Modelled from the spec: the Arch enumeration of the crate root; a
closed enumeration X64, Arm64. -/
inductive Arch
  | X64
  | Arm64
  deriving DecidableEq

/-- Modelled from the spec: the Opt (optimization level) enumeration of
the crate root; a closed enumeration Debug, Release. -/
inductive Opt
  | Debug
  | Release
  deriving DecidableEq

/-- Modelled from the spec: `CompileTarget`, the immutable
(Platform, Arch, Opt) triple of the crate root. -/
structure CompileTarget where
  platform : Platform
  arch : Arch
  opt : Opt
  deriving DecidableEq

/-- Modelled from the spec: `CompileTarget::new` holds the triple and
performs no validation. -/
def CompileTarget.new (platform : Platform) (arch : Arch) (opt : Opt) :
    CompileTarget :=
  ⟨platform, arch, opt⟩

/-- Modelled from the spec: `Platform::host` detects the platform the
build runs on and succeeds exactly on the supported desktop operating
systems, so a detected host platform is Linux, Windows or Macos. -/
def Platform.isDesktopHost : Platform → Bool
  | .Linux => true
  | .Windows => true
  | .Macos => true
  | _ => false

/-- The platform-specific SDK fetch operations that `prefetch` can
request (download.rs:208-268). -/
inductive SdkOp
  | windowsSdk
  | macosSdk
  | androidNdk
  | androidJar
  | iosSdk
  deriving DecidableEq

/-- The platform whose SDK an operation fetches. -/
def sdkPlatform : SdkOp → Platform
  | .windowsSdk => .Windows
  | .macosSdk => .Macos
  | .androidNdk => .Android
  | .androidJar => .Android
  | .iosSdk => .Ios

/-- The SDK-selection match of `prefetch` (download.rs:117-135), as a
function of the target platform and the detected host platform: cross
compiling to Linux from a non-Linux host bails out; the Windows and
macOS SDKs are fetched only when the host differs; Android and iOS
always fetch their SDKs. -/
def prefetchSdkOps (target hp : Platform) : Except Unit (List SdkOp) :=
  match target with
  | .Linux => if hp ≠ .Linux then .error () else .ok []
  | .Windows => if hp ≠ .Windows then .ok [.windowsSdk] else .ok []
  | .Macos => if hp ≠ .Macos then .ok [.macosSdk] else .ok []
  | .Android => .ok [.androidNdk, .androidJar]
  | .Ios => .ok [.iosSdk]

/-- The engine targets `prefetch` iterates over (download.rs:137-143):
every requested compile target, then the host-Debug target.  The
requested targets (`compile_targets()`, declared outside the provided
sources) are a parameter. -/
def prefetchEngineTargets (requested : List CompileTarget) (hp : Platform)
    (ha : Arch) : List CompileTarget :=
  requested ++ [CompileTarget.new hp ha Opt.Debug]

/-- The whole prefetch plan (download.rs:116-153): the selected SDK
operations plus, when a Flutter toolchain is configured, the engine
targets to fetch. -/
def prefetchPlan (target hp : Platform) (ha : Arch)
    (requested : List CompileTarget) (hasFlutter : Bool) :
    Except Unit (List SdkOp × List CompileTarget) :=
  match prefetchSdkOps target hp with
  | .error e => .error e
  | .ok ops =>
    .ok (ops, if hasFlutter then prefetchEngineTargets requested hp ha else [])

/-- Embeds `DownloadManager::windows_sdk` (download.rs:228-236): the work item
for the Windows SDK release archive; the symlink filter is applied only
when the host compiling is not Linux (`!cfg!(target_os = "linux")`). -/
def windowsSdkItem (output : FsPath) (hostIsLinux : Bool) : WorkItem :=
  let item := WorkItem.github_release output "cloudpeers" "x" "v0.1.0+2"
    "Windows.sdk.tar.zst"
  if !hostIsLinux then item.no_symlinks else item

/-- Embeds `DownloadManager::macos_sdk` (download.rs:238-246): the colon filter
is applied only when the host compiling is Windows. -/
def macosSdkItem (output : FsPath) (hostIsWindows : Bool) : WorkItem :=
  let item := WorkItem.github_release output "cloudpeers" "x" "v0.1.0+2"
    "MacOSX.sdk.tar.zst"
  if hostIsWindows then item.no_colons else item

/-- Embeds `Flutter` (flutter/mod.rs:14-19): a git binary, the checkout path,
the cache root and verbosity. -/
structure Flutter where
  git : FsPath
  repo : FsPath
  cache : FsPath
  verbose : Bool
  deriving DecidableEq

/-- Errors of the embedded Flutter toolchain-locator operations, each
carrying the offending path. -/
inductive FError
  | missingVersionMarker (p : FsPath)
  | missingArtifact (p : FsPath)
  deriving DecidableEq

/-- The observable files of the Flutter side: an association list from
paths to file contents (directories carry an empty content; only
existence is observed for them). -/
abbrev VfsState := List (FsPath × String)

/-- Lookup of a path's content. -/
def vfsLookup (fs : VfsState) (p : FsPath) : Option String :=
  (fs.find? (fun e => e.1 == p)).map (fun e => e.2)

/-- Embeds `Path::exists` on the Flutter-side state. -/
def vfsExists (fs : VfsState) (p : FsPath) : Bool :=
  (vfsLookup fs p).isSome

/-- Embeds `str::trim` of Rust, via character lists. -/
def trimChars (l : List Char) : List Char :=
  ((l.dropWhile Char.isWhitespace).reverse.dropWhile Char.isWhitespace).reverse

/-- Embeds `str::trim` on strings. -/
def rustTrim (s : String) : String :=
  String.mk (trimChars s.toList)

/-- Embeds `str::split('/')`, on character lists; keeps empty segments, like
the Rust iterator. -/
def splitSlashAux : List Char → List Char → List (List Char)
  | [], acc => [acc.reverse]
  | c :: cs, acc =>
    if c = '/' then acc.reverse :: splitSlashAux cs []
    else splitSlashAux cs (c :: acc)

/-- Embeds `str::split('/')` on strings. -/
def rustSplitSlash (s : String) : List String :=
  (splitSlashAux s.toList []).map (fun l => String.mk l)

/-- The path components `PathBuf::join` appends for a relative string:
its slash-separated segments with empty segments collapsed (an absolute
argument, which would replace the base path, is outside the model). -/
def joinComponents (v : String) : List String :=
  (rustSplitSlash v).filter (fun s => !(s == ""))

/-- The path of an artifact's version marker file,
`<repo>/bin/internal/<artifact>.version` (flutter/mod.rs:79-83). -/
def Flutter.versionMarkerPath (fl : Flutter) (artifact : String) : FsPath :=
  fl.repo ++ ["bin", "internal", artifact ++ ".version"]

/-- Embeds `Flutter::artifact_version` (flutter/mod.rs:78-90): ensure the
marker exists, read it, trim it. -/
def Flutter.artifact_version (fl : Flutter) (fs : VfsState) (artifact : String) :
    Except FError String :=
  match vfsLookup fs (fl.versionMarkerPath artifact) with
  | none => .error (.missingVersionMarker (fl.versionMarkerPath artifact))
  | some content => .ok (rustTrim content)

/-- Embeds `Flutter::engine_version` (flutter/mod.rs:92-94). -/
def Flutter.engine_version (fl : Flutter) (fs : VfsState) : Except FError String :=
  fl.artifact_version fs "engine"

/-- Outcome of an operation that can also panic (an `unwrap` in the
source). -/
inductive PRes (α : Type)
  | ok (a : α)
  | error (e : FError)
  | panicked
  deriving DecidableEq

/-- Embeds `Flutter::material_fonts_version` (flutter/mod.rs:96-103): the
fourth slash-separated segment of the trimmed marker, obtained through
`nth(3).unwrap()` — the unwrap panics when there are fewer than four
segments. -/
def Flutter.material_fonts_version (fl : Flutter) (fs : VfsState) : PRes String :=
  match fl.artifact_version fs "material_fonts" with
  | .error e => .error e
  | .ok s =>
    match (rustSplitSlash s)[3]? with
    | some seg => .ok seg
    | none => .panicked

/-- Modelled from the spec: the Display strings of Opt used in cache
keys (the Display instances live in the crate root, outside the
provided sources); the layout `<cache>/engine/<version>/<opt>/...`
requires one distinct lowercase name per variant. -/
def Opt.str : Opt → String
  | .Debug => "debug"
  | .Release => "release"

/-- Modelled from the spec: the Display strings of Platform used in
cache keys; one distinct lowercase name per variant. -/
def Platform.str : Platform → String
  | .Linux => "linux"
  | .Windows => "windows"
  | .Macos => "macos"
  | .Android => "android"
  | .Ios => "ios"

/-- Modelled from the spec: the Display strings of Arch used in cache
keys; one distinct lowercase name per variant. -/
def Arch.str : Arch → String
  | .X64 => "x64"
  | .Arm64 => "arm64"

/-- Embeds `Flutter::engine_dir` (flutter/mod.rs:105-114):
`<cache>/engine/<engine-version>/<opt>/<platform>/<arch>`. -/
def Flutter.engine_dir (fl : Flutter) (fs : VfsState) (target : CompileTarget) :
    Except FError FsPath :=
  match fl.engine_version fs with
  | .error e => .error e
  | .ok v =>
    .ok (fl.cache ++ ["engine"] ++ joinComponents v ++
      [target.opt.str, target.platform.str, target.arch.str])

/-- Embeds `Flutter::host_file` (flutter/mod.rs:116-121): resolve against the
engine directory of the host-Debug target and ensure the file exists,
failing with an error that names the expected path. -/
def Flutter.host_file (fl : Flutter) (fs : VfsState) (hp : Platform) (ha : Arch)
    (p : FsPath) : Except FError FsPath :=
  match fl.engine_dir fs (CompileTarget.new hp ha Opt.Debug) with
  | .error e => .error e
  | .ok dir =>
    if vfsExists fs (dir ++ p) then .ok (dir ++ p)
    else .error (.missingArtifact (dir ++ p))

/-- An argument of an external command: a plain string or a path. -/
inductive CmdArg
  | s (v : String)
  | p (v : FsPath)
  deriving DecidableEq

/-- Embeds `Flutter::dart` (flutter/mod.rs:141-144): the dart binary of the
host engine.  The executable-name macro of the crate root is not among
the provided sources; on a Unix host it resolves to the plain name. -/
def Flutter.dart (fl : Flutter) (fs : VfsState) (hp : Platform) (ha : Arch) :
    Except FError FsPath :=
  fl.host_file fs hp ha ["dart-sdk", "bin", "dart"]

/-- Embeds `Flutter::kernel_blob_bin` (flutter/mod.rs:185-224): the frontend
compiler invocation — dart binary, frontend server snapshot, the fixed
options, then the Opt-dependent flag block, then the target file.  The
returned pair is the program and its argument list. -/
def Flutter.kernel_blob_bin (fl : Flutter) (fs : VfsState) (hp : Platform)
    (ha : Arch) (root_dir target_file output depfile : FsPath) (opt : Opt) :
    Except FError (FsPath × List CmdArg) :=
  match fl.dart fs hp ha with
  | .error e => .error e
  | .ok dart =>
    match fl.host_file fs hp ha ["frontend_server.dart.snapshot"] with
    | .error e => .error e
    | .ok frontend =>
      let pre : List CmdArg :=
        [CmdArg.p frontend, CmdArg.s "--target=flutter",
          CmdArg.s "--no-print-incremental-dependencies",
          CmdArg.s "--packages", CmdArg.s ".packages",
          CmdArg.s "--output-dill", CmdArg.p output,
          CmdArg.s "--depfile", CmdArg.p depfile]
      match opt with
      | Opt.Release =>
        match fl.host_file fs hp ha ["flutter_patched_sdk_product"] with
        | .error e => .error e
        | .ok sdk =>
          .ok (dart, pre ++
            [CmdArg.s "--sdk-root", CmdArg.p sdk,
              CmdArg.s "-Ddart.vm.profile=false",
              CmdArg.s "-Ddart.vm.product=true",
              CmdArg.s "--aot", CmdArg.s "--tfa"] ++
            [CmdArg.p target_file])
      | Opt.Debug =>
        match fl.host_file fs hp ha ["flutter_patched_sdk"] with
        | .error e => .error e
        | .ok sdk =>
          .ok (dart, pre ++
            [CmdArg.s "--sdk-root", CmdArg.p sdk,
              CmdArg.s "-Ddart.vm.profile=false",
              CmdArg.s "-Ddart.vm.product=false",
              CmdArg.s "--track-widget-creation"] ++
            [CmdArg.p target_file])

theorem isPrefixOf_self (l : List String) : l.isPrefixOf l = true := by
  induction l with
  | nil => rfl
  | cons a as ih => simp [List.isPrefixOf, ih]

theorem existsPath_removeOutput (fs : FsState) (p : FsPath) :
    existsPath (removeOutput fs p).1 p = false := by
  unfold removeOutput
  by_cases hd : isDirFS fs p = true
  · simp only [hd, if_true, existsPath, List.any_eq_false]
    intro e he
    rcases List.mem_filter.mp he with ⟨_, hkeep⟩
    intro habs
    have hep : e.1 = p := by simpa using habs
    rw [hep] at hkeep
    simp [isPrefixOf_self] at hkeep
  · simp only [hd, if_false, existsPath, List.any_eq_false]
    intro e he
    rcases List.mem_filter.mp he with ⟨_, hkeep⟩
    simpa using hkeep

theorem rsplitOnceAux_eq_none (l : List Char) (c : Char) (h : c ∉ l) :
    rsplitOnceAux l c = none := by
  induction l with
  | nil => rfl
  | cons x xs ih =>
    have hx : x ≠ c := fun hxc => h (hxc ▸ List.mem_cons_self x xs)
    have hxs : c ∉ xs := fun hm => h (List.mem_cons_of_mem x hm)
    simp [rsplitOnceAux, ih hxs, hx]

theorem rsplitOnce_eq_none (s : String) (c : Char) (h : c ∉ s.toList) :
    rsplitOnce s c = none := by
  unfold rsplitOnce
  rw [rsplitOnceAux_eq_none s.toList c h]
  rfl

/-- The per-entry keep condition of the extraction filters, written as
the spec words it: an entry is kept unless `no_symlinks` excludes a
symlink entry or `no_colons` excludes a colon-containing path, the two
conditions being independent. -/
def keepEntrySpec (item : WorkItem) (e : TarEntry) : Bool :=
  !(item.noSymlinks && (e.entryType == EntryType.symlink)) &&
  !(item.noColons && e.path.any (fun s => s.contains ':'))

theorem extractEntries_all_ok (item : WorkItem) (dest : FsPath) :
    ∀ (entries : List TarEntry) (fs : FsState),
      (∀ e ∈ entries, e.readOk = true ∧ e.unpackOk = true) →
      (extractEntries item dest entries fs).2.1 = true ∧
      (extractEntries item dest entries fs).2.2 =
        (entries.filter (keepEntrySpec item)).map
          (fun e => FsEvent.unpack (dest ++ e.path))
  | [], fs, _ => by simp [extractEntries]
  | e :: rest, fs, h => by
    have he := h e (List.mem_cons_self e rest)
    have hrest : ∀ x ∈ rest, x.readOk = true ∧ x.unpackOk = true :=
      fun x hx => h x (List.mem_cons_of_mem e hx)
    by_cases hsym : (item.noSymlinks && (e.entryType == EntryType.symlink)) = true
    · have ih := extractEntries_all_ok item dest rest fs hrest
      have hkeep : keepEntrySpec item e = false := by
        simp [keepEntrySpec, hsym]
      rw [List.filter_cons_of_neg (by simp [hkeep])]
      constructor
      · rw [extractEntries]
        simp only [he.1, hsym, Bool.true_eq_false, if_false, if_true]
        exact ih.1
      · rw [extractEntries]
        simp only [he.1, hsym, Bool.true_eq_false, if_false, if_true]
        exact ih.2
    · by_cases hcol : (item.noColons && e.path.any (fun s => s.contains ':')) = true
      · have ih := extractEntries_all_ok item dest rest fs hrest
        have hkeep : keepEntrySpec item e = false := by
          simp [keepEntrySpec, hcol]
        rw [List.filter_cons_of_neg (by simp [hkeep])]
        constructor
        · rw [extractEntries]
          simp only [he.1, hsym, hcol, Bool.true_eq_false, if_false, if_true]
          exact ih.1
        · rw [extractEntries]
          simp only [he.1, hsym, hcol, Bool.true_eq_false, if_false, if_true]
          exact ih.2
      · have ih := extractEntries_all_ok item dest rest
          (insertNode fs (dest ++ e.path) (NodeKind.ofEntry e.entryType)) hrest
        have hkeep : keepEntrySpec item e = true := by
          simp only [keepEntrySpec, Bool.and_eq_true, Bool.not_eq_true']
          exact ⟨Bool.not_eq_true _ ▸ Bool.of_not_eq_true hsym,
            Bool.not_eq_true _ ▸ Bool.of_not_eq_true hcol⟩
        rw [List.filter_cons_of_pos (by simp [hkeep])]
        constructor
        · simp [extractEntries, he.1, he.2, hsym, hcol, ih.1]
        · simp [extractEntries, he.1, he.2, hsym, hcol, ih.2]

theorem finishFetch_error_gone (item : WorkItem)
    (r : FsState × Bool × List FsEvent)
    (h : (finishFetch item r).result = FRes.error) :
    existsPath (finishFetch item r).fs item.output = false := by
  unfold finishFetch at h ⊢
  by_cases hok : r.2.1 = true
  · simp [hok] at h
  · simp only [Bool.not_eq_true] at hok
    simp only [hok, Bool.false_eq_true, if_false]
    exact existsPath_removeOutput _ _

/-- Claim C1: whenever `fetch` returns an error, the item's output path
does not exist afterwards, neither as a file nor as a directory — the
cleanup removes the target output (recursively when it is a directory)
before the error propagates. -/
theorem fetch_error_output_gone (mgr : DownloadManager) (env : FetchEnv)
    (fs : FsState) (item : WorkItem)
    (h : (fetch mgr env fs item).result = FRes.error) :
    existsPath (fetch mgr env fs item).fs item.output = false := by
  unfold fetch at h ⊢
  by_cases hex : existsPath fs item.output = true
  · simp [hex] at h
  · simp only [Bool.not_eq_true] at hex
    simp only [hex, Bool.false_eq_true, if_false] at h ⊢
    cases hsplit : rsplitOnce item.url '/' with
    | none =>
      rw [hsplit] at h
      simp at h
    | some pr =>
      rw [hsplit] at h
      exact finishFetch_error_gone item (fetchInner mgr env fs item pr.2) h

/-- Witness for C1: a direct-copy fetch whose GET has a failing status
returns an error and leaves no output file behind. -/
theorem fetch_error_output_gone_witness :
    existsPath
      (fetch ⟨["cache"]⟩ ⟨⟨false, true⟩, [], true, true, [], []⟩ []
        ⟨"http://h/a.bin", ["o"], false, false⟩).fs ["o"] = false :=
  fetch_error_output_gone ⟨["cache"]⟩ ⟨⟨false, true⟩, [], true, true, [], []⟩ []
    ⟨"http://h/a.bin", ["o"], false, false⟩ (by decide)

/-- Claim C2: when the output already exists, `fetch` returns success
immediately, the on-disk state is unchanged, and no download,
extraction or deletion is performed — so repeated fetches do the work
at most once and never delete a pre-existing artifact. -/
theorem fetch_existing_noop (mgr : DownloadManager) (env : FetchEnv)
    (fs : FsState) (item : WorkItem)
    (h : existsPath fs item.output = true) :
    fetch mgr env fs item = ⟨FRes.ok, fs, []⟩ := by
  unfold fetch
  simp [h]

/-- Witness for C2: fetching an item whose output is already on disk is
a no-op. -/
theorem fetch_existing_noop_witness :
    fetch ⟨["cache"]⟩ ⟨⟨true, true⟩, [], true, true, [], []⟩
      [(["o"], NodeKind.file)] ⟨"http://h/a.bin", ["o"], false, false⟩ =
      ⟨FRes.ok, [(["o"], NodeKind.file)], []⟩ :=
  fetch_existing_noop ⟨["cache"]⟩ ⟨⟨true, true⟩, [], true, true, [], []⟩
    [(["o"], NodeKind.file)] ⟨"http://h/a.bin", ["o"], false, false⟩ (by decide)

/-- Claim C10: when the output does not yet exist and the url contains
no slash, `fetch` panics (the `unwrap` on `rsplit_once`), rather than
returning an error value. -/
theorem fetch_url_no_slash_panics (mgr : DownloadManager) (env : FetchEnv)
    (fs : FsState) (item : WorkItem)
    (hex : existsPath fs item.output = false)
    (h : '/' ∉ item.url.toList) :
    (fetch mgr env fs item).result = FRes.panicked := by
  unfold fetch
  simp [hex, rsplitOnce_eq_none item.url '/' h]

/-- Witness for C10: a slash-free url with an absent output makes
`fetch` panic. -/
theorem fetch_url_no_slash_panics_witness :
    (fetch ⟨["cache"]⟩ ⟨⟨true, true⟩, [], true, true, [], []⟩ []
      ⟨"nourl", ["o"], false, false⟩).result = FRes.panicked :=
  fetch_url_no_slash_panics ⟨["cache"]⟩ ⟨⟨true, true⟩, [], true, true, [], []⟩ []
    ⟨"nourl", ["o"], false, false⟩ (by decide) (by decide)

/-- Claim C5: during a successful `.tar.zst` fetch, exactly the entries
passing the two independent per-entry filters are unpacked: a symlink
entry is excluded when `no_symlinks` is set, a colon-containing path is
excluded when `no_colons` is set, and with neither filter set every
entry is unpacked. -/
theorem fetch_tar_filter (mgr : DownloadManager) (env : FetchEnv)
    (fs : FsState) (item : WorkItem) (pre name : String)
    (hex : existsPath fs item.output = false)
    (hsplit : rsplitOnce item.url '/' = some (pre, name))
    (hname : strEndsWith name ".tar.zst" = true)
    (hstatus : env.dl.status = true)
    (hcopy : env.dl.copyOk = true)
    (hentries : ∀ e ∈ env.tarEntries, e.readOk = true ∧ e.unpackOk = true) :
    (fetch mgr env fs item).result = FRes.ok ∧
    (fetch mgr env fs item).trace =
      FsEvent.download item.url (mgr.cacheDir ++ ["download", name]) ::
        (env.tarEntries.filter (keepEntrySpec item)).map
          (fun e => FsEvent.unpack (parentDir item.output ++ e.path)) := by
  have hx := extractEntries_all_ok item (parentDir item.output) env.tarEntries
    (insertNode
      (insertNode fs (mgr.cacheDir ++ ["download", name]) NodeKind.file)
      (parentDir item.output) NodeKind.dir) hentries
  unfold fetch
  rw [hex]
  simp only [Bool.false_eq_true, if_false, hsplit]
  unfold finishFetch fetchInner download
  rw [hstatus, hcopy, hname]
  simp [hx.1, hx.2]

/-- Witness for C5: an archive holding a symlink entry, a colon-named
entry and a plain entry, fetched with neither filter set, unpacks all
three in order. -/
theorem fetch_tar_filter_witness :
    (fetch ⟨["cache"]⟩
      ⟨⟨true, true⟩,
        [⟨true, EntryType.symlink, ["link"], true⟩,
          ⟨true, EntryType.regular, ["man:1"], true⟩,
          ⟨true, EntryType.regular, ["artifact"], true⟩],
        true, true, [], []⟩
      [] ⟨"http://h/x.tar.zst", ["out", "artifact"], false, false⟩).result =
        FRes.ok ∧
    (fetch ⟨["cache"]⟩
      ⟨⟨true, true⟩,
        [⟨true, EntryType.symlink, ["link"], true⟩,
          ⟨true, EntryType.regular, ["man:1"], true⟩,
          ⟨true, EntryType.regular, ["artifact"], true⟩],
        true, true, [], []⟩
      [] ⟨"http://h/x.tar.zst", ["out", "artifact"], false, false⟩).trace =
      FsEvent.download "http://h/x.tar.zst" ["cache", "download", "x.tar.zst"] ::
        [FsEvent.unpack ["out", "link"], FsEvent.unpack ["out", "man:1"],
          FsEvent.unpack ["out", "artifact"]] :=
  fetch_tar_filter ⟨["cache"]⟩
    ⟨⟨true, true⟩,
      [⟨true, EntryType.symlink, ["link"], true⟩,
        ⟨true, EntryType.regular, ["man:1"], true⟩,
        ⟨true, EntryType.regular, ["artifact"], true⟩],
      true, true, [], []⟩
    [] ⟨"http://h/x.tar.zst", ["out", "artifact"], false, false⟩
    "http://h" "x.tar.zst" (by decide) (by decide) (by decide) (by decide)
    (by decide) (by decide)

/-- Claim C3: no SDK-fetch operation selected by `prefetch` targets the
detected host platform; in particular the SDK for a target platform
equal to the host is skipped. -/
theorem prefetch_host_skip (target hp : Platform) (ops : List SdkOp)
    (hhost : hp.isDesktopHost = true)
    (hops : prefetchSdkOps target hp = Except.ok ops) :
    ∀ op ∈ ops, sdkPlatform op ≠ hp := by
  cases target <;> cases hp <;>
    simp_all [prefetchSdkOps, Platform.isDesktopHost] <;>
    (try subst hops) <;> decide

/-- Witness for C3: compiling for Windows on a Linux host selects only
the Windows SDK fetch, which does not target the host platform. -/
theorem prefetch_host_skip_witness :
    sdkPlatform SdkOp.windowsSdk ≠ Platform.Linux :=
  prefetch_host_skip Platform.Windows Platform.Linux [SdkOp.windowsSdk]
    (by decide) rfl SdkOp.windowsSdk (by decide)

/-- Counterexample to C4 as stated: on a Linux host the Windows SDK
work item does not have the symlink filter enabled — the source enables
`no_symlinks` only when the host is not Linux. -/
theorem windows_sdk_symlink_cex :
    ¬ ((windowsSdkItem ["sdk"] true).noSymlinks = true) := by
  decide

/-- Claim C4 (amended): for target (Windows, X64, Release) on a Linux
host, prefetch fetches the Windows SDK archive with the symlink filter
disabled (the filter is enabled only on non-Linux hosts), from the
fixed GitHub release url, and fetches engine artifacts for
(Windows, X64, Release) plus the host's own (Linux, host-arch, Debug)
target. -/
theorem prefetch_windows_on_linux (out : FsPath) (ha : Arch) :
    prefetchPlan Platform.Windows Platform.Linux ha
        [CompileTarget.new Platform.Windows Arch.X64 Opt.Release] true =
      Except.ok ([SdkOp.windowsSdk],
        [CompileTarget.new Platform.Windows Arch.X64 Opt.Release,
          CompileTarget.new Platform.Linux ha Opt.Debug]) ∧
    (windowsSdkItem out true).noSymlinks = false ∧
    (windowsSdkItem out true).noColons = false ∧
    (windowsSdkItem out true).url =
      "https://github.com/cloudpeers/x/releases/download/v0.1.0+2/Windows.sdk.tar.zst" ∧
    (windowsSdkItem out true).output = out := by
  refine ⟨rfl, rfl, rfl, rfl, rfl⟩

theorem stringMkToList (s : String) : String.mk s.toList = s := rfl

theorem splitSlashAux_no_slash (l acc : List Char) (h : '/' ∉ l) :
    splitSlashAux l acc = [acc.reverse ++ l] := by
  induction l generalizing acc with
  | nil => simp [splitSlashAux]
  | cons c cs ih =>
    have hc : ¬ (c = '/') := fun hh => h (List.mem_cons.mpr (Or.inl hh.symm))
    have hcs : '/' ∉ cs := fun hm => h (List.mem_cons_of_mem c hm)
    rw [splitSlashAux, if_neg hc, ih (c :: acc) hcs]
    simp

theorem joinComponents_single (v : String) (h1 : (v == "") = false)
    (h2 : '/' ∉ v.toList) : joinComponents v = [v] := by
  unfold joinComponents rustSplitSlash
  rw [splitSlashAux_no_slash v.toList [] h2]
  simp [stringMkToList, h1]

theorem prefixOf_eq_of_length :
    ∀ (l₁ l₂ : List String), l₁.isPrefixOf l₂ = true →
      l₁.length = l₂.length → l₁ = l₂
  | [], [], _, _ => rfl
  | [], _ :: _, _, hl => by simp at hl
  | _ :: _, [], hp, _ => by simp [List.isPrefixOf] at hp
  | a :: as, b :: bs, hp, hl => by
    simp only [List.isPrefixOf, Bool.and_eq_true, beq_iff_eq] at hp
    simp only [List.length_cons] at hl
    rw [hp.1, prefixOf_eq_of_length as bs hp.2 (by omega)]

theorem engine_dir_eq (fl : Flutter) (fs : VfsState) (t : CompileTarget)
    (v : String) (he : fl.engine_version fs = Except.ok v) :
    fl.engine_dir fs t = Except.ok (fl.cache ++ ["engine"] ++ joinComponents v ++
      [t.opt.str, t.platform.str, t.arch.str]) := by
  unfold Flutter.engine_dir
  rw [he]

theorem optStr_inj (a b : Opt) (h : a.str = b.str) : a = b := by
  cases a <;> cases b <;> first | rfl | exact absurd h (by decide)

theorem platformStr_inj (a b : Platform) (h : a.str = b.str) : a = b := by
  cases a <;> cases b <;> first | rfl | exact absurd h (by decide)

theorem archStr_inj (a b : Arch) (h : a.str = b.str) : a = b := by
  cases a <;> cases b <;> first | rfl | exact absurd h (by decide)

/-- Claim C6 (amended): when the engine version strings are nonempty and
contain no slash (so each is a single path component, as `PathBuf::join`
otherwise splits or collapses them), the engine directories of two
(version, opt, platform, arch) tuples differing in at least one field
are distinct and neither is a prefix of the other; in particular
changing any single field changes the resolved path. -/
theorem engine_dir_separation (fl : Flutter) (fs₁ fs₂ : VfsState)
    (t₁ t₂ : CompileTarget) (v₁ v₂ : String) (q₁ q₂ : FsPath)
    (hv₁ : (v₁ == "") = false) (hs₁ : '/' ∉ v₁.toList)
    (hv₂ : (v₂ == "") = false) (hs₂ : '/' ∉ v₂.toList)
    (he₁ : fl.engine_version fs₁ = Except.ok v₁)
    (he₂ : fl.engine_version fs₂ = Except.ok v₂)
    (hq₁ : fl.engine_dir fs₁ t₁ = Except.ok q₁)
    (hq₂ : fl.engine_dir fs₂ t₂ = Except.ok q₂)
    (hne : v₁ ≠ v₂ ∨ t₁ ≠ t₂) :
    q₁ ≠ q₂ ∧ q₁.isPrefixOf q₂ = false ∧ q₂.isPrefixOf q₁ = false := by
  obtain ⟨p₁, a₁, o₁⟩ := t₁
  obtain ⟨p₂, a₂, o₂⟩ := t₂
  rw [engine_dir_eq fl fs₁ ⟨p₁, a₁, o₁⟩ v₁ he₁,
    joinComponents_single v₁ hv₁ hs₁] at hq₁
  rw [engine_dir_eq fl fs₂ ⟨p₂, a₂, o₂⟩ v₂ he₂,
    joinComponents_single v₂ hv₂ hs₂] at hq₂
  injection hq₁ with hq₁
  injection hq₂ with hq₂
  have h1 : q₁ = fl.cache ++ "engine" :: v₁ :: o₁.str :: p₁.str :: [a₁.str] := by
    rw [← hq₁]; simp
  have h2 : q₂ = fl.cache ++ "engine" :: v₂ :: o₂.str :: p₂.str :: [a₂.str] := by
    rw [← hq₂]; simp
  have hne' : q₁ ≠ q₂ := by
    intro heq
    rw [h1, h2] at heq
    have hc := List.append_cancel_left heq
    simp only [List.cons.injEq, and_true] at hc
    obtain ⟨-, hv, ho, hpp, haa⟩ := hc
    rcases hne with hne | hne
    · exact hne hv
    · exact hne (by
        rw [platformStr_inj p₁ p₂ hpp, archStr_inj a₁ a₂ haa,
          optStr_inj o₁ o₂ ho])
  have hlen : q₁.length = q₂.length := by rw [h1, h2]; simp
  refine ⟨hne', ?_, ?_⟩
  · cases hpb : q₁.isPrefixOf q₂ with
    | false => rfl
    | true => exact absurd (prefixOf_eq_of_length q₁ q₂ hpb hlen) hne'
  · cases hpb : q₂.isPrefixOf q₁ with
    | false => rfl
    | true =>
      exact absurd (prefixOf_eq_of_length q₂ q₁ hpb hlen.symm)
        (fun hh => hne' hh.symm)

/-- Counterexample to C6 as stated: the engine version comes from a
marker file and may contain slashes, and `PathBuf::join` then nests its
segments — with versions "v" and "v/debug/linux/x64" the two tuples
differ (in the version field) yet one resolved engine directory is a
strict prefix of the other, so the directories overlap. -/
theorem engine_dir_overlap_cex :
    Flutter.engine_dir ⟨["git"], ["flutter"], ["cache"], false⟩
        [(["flutter", "bin", "internal", "engine.version"], "v")]
        (CompileTarget.new Platform.Linux Arch.X64 Opt.Debug) =
      Except.ok ["cache", "engine", "v", "debug", "linux", "x64"] ∧
    Flutter.engine_dir ⟨["git"], ["flutter"], ["cache"], false⟩
        [(["flutter", "bin", "internal", "engine.version"], "v/debug/linux/x64")]
        (CompileTarget.new Platform.Linux Arch.X64 Opt.Debug) =
      Except.ok
        ["cache", "engine", "v", "debug", "linux", "x64", "debug", "linux", "x64"] ∧
    ("v" : String) ≠ "v/debug/linux/x64" ∧
    List.isPrefixOf ["cache", "engine", "v", "debug", "linux", "x64"]
      ["cache", "engine", "v", "debug", "linux", "x64", "debug", "linux", "x64"] =
      true :=
  ⟨rfl, rfl, by decide, rfl⟩

/-- Witness for the amended C6: two single-component versions resolve to
distinct, non-overlapping engine directories. -/
theorem engine_dir_separation_witness :
    (["cache", "engine", "v1", "debug", "linux", "x64"] : FsPath) ≠
        ["cache", "engine", "v2", "debug", "linux", "x64"] ∧
    List.isPrefixOf (["cache", "engine", "v1", "debug", "linux", "x64"] : FsPath)
        ["cache", "engine", "v2", "debug", "linux", "x64"] = false ∧
    List.isPrefixOf (["cache", "engine", "v2", "debug", "linux", "x64"] : FsPath)
        ["cache", "engine", "v1", "debug", "linux", "x64"] = false :=
  engine_dir_separation ⟨["git"], ["flutter"], ["cache"], false⟩
    [(["flutter", "bin", "internal", "engine.version"], "v1")]
    [(["flutter", "bin", "internal", "engine.version"], "v2")]
    (CompileTarget.new Platform.Linux Arch.X64 Opt.Debug)
    (CompileTarget.new Platform.Linux Arch.X64 Opt.Debug)
    "v1" "v2"
    ["cache", "engine", "v1", "debug", "linux", "x64"]
    ["cache", "engine", "v2", "debug", "linux", "x64"]
    (by decide) (by decide) (by decide) (by decide)
    rfl rfl rfl rfl (Or.inl (by decide))

/-- Claim C8: `host_file` resolves a relative path against the engine
directory of the host-Debug compile target and either returns exactly
that path (when it exists) or fails with an error naming it — never a
fallback location. -/
theorem host_file_spec (fl : Flutter) (fs : VfsState) (hp : Platform)
    (ha : Arch) (p dir : FsPath)
    (hdir : fl.engine_dir fs (CompileTarget.new hp ha Opt.Debug) = Except.ok dir) :
    (vfsExists fs (dir ++ p) = true →
      fl.host_file fs hp ha p = Except.ok (dir ++ p)) ∧
    (vfsExists fs (dir ++ p) = false →
      fl.host_file fs hp ha p = Except.error (.missingArtifact (dir ++ p))) := by
  unfold Flutter.host_file
  rw [hdir]
  constructor
  · intro hex; simp [hex]
  · intro hex; simp [hex]

/-- Witness for C8: a present host file resolves under the host-Debug
engine directory. -/
theorem host_file_spec_witness :
    Flutter.host_file ⟨["git"], ["flutter"], ["cache"], false⟩
      [(["flutter", "bin", "internal", "engine.version"], "v"),
        (["cache", "engine", "v", "debug", "linux", "x64", "icudtl.dat"], "")]
      Platform.Linux Arch.X64 ["icudtl.dat"] =
      Except.ok ["cache", "engine", "v", "debug", "linux", "x64", "icudtl.dat"] :=
  (host_file_spec ⟨["git"], ["flutter"], ["cache"], false⟩
    [(["flutter", "bin", "internal", "engine.version"], "v"),
      (["cache", "engine", "v", "debug", "linux", "x64", "icudtl.dat"], "")]
    Platform.Linux Arch.X64 ["icudtl.dat"]
    ["cache", "engine", "v", "debug", "linux", "x64"] rfl).1 (by decide)

/-- Counterexample to C9 as stated: a marker whose trimmed content has
fewer than four slash-separated segments makes the function panic (the
`unwrap` on `nth(3)`) instead of returning an error value. -/
theorem material_fonts_version_panic_cex :
    Flutter.material_fonts_version ⟨["git"], ["flutter"], ["cache"], false⟩
      [(["flutter", "bin", "internal", "material_fonts.version"], "fonts")] =
      PRes.panicked := rfl

/-- Claim C9 (amended): `material_fonts_version` returns the fourth
slash-separated segment of the trimmed marker string when there are at
least four segments, returns a version-resolution error naming the
marker path when the marker file is missing, and panics (rather than
returning an error) when the marker exists but has fewer than four
segments. -/
theorem material_fonts_version_spec (fl : Flutter) (fs : VfsState) :
    (vfsLookup fs (fl.versionMarkerPath "material_fonts") = none →
      fl.material_fonts_version fs =
        PRes.error (FError.missingVersionMarker
          (fl.versionMarkerPath "material_fonts"))) ∧
    (∀ c seg, vfsLookup fs (fl.versionMarkerPath "material_fonts") = some c →
      (rustSplitSlash (rustTrim c))[3]? = some seg →
      fl.material_fonts_version fs = PRes.ok seg) ∧
    (∀ c, vfsLookup fs (fl.versionMarkerPath "material_fonts") = some c →
      (rustSplitSlash (rustTrim c))[3]? = none →
      fl.material_fonts_version fs = PRes.panicked) := by
  unfold Flutter.material_fonts_version Flutter.artifact_version
  refine ⟨?_, ?_, ?_⟩
  · intro hnone
    rw [hnone]
  · intro c seg hc hseg
    rw [hc]
    simp [hseg]
  · intro c hc hseg
    rw [hc]
    simp [hseg]

/-- Witness for the amended C9: a marker with four slash-separated
segments yields the fourth one. -/
theorem material_fonts_version_spec_witness :
    Flutter.material_fonts_version ⟨["git"], ["flutter"], ["cache"], false⟩
      [(["flutter", "bin", "internal", "material_fonts.version"], "x/y/z/w")] =
      PRes.ok "w" :=
  (material_fonts_version_spec ⟨["git"], ["flutter"], ["cache"], false⟩
    [(["flutter", "bin", "internal", "material_fonts.version"], "x/y/z/w")]).2.1
    "x/y/z/w" "w" rfl rfl

/-- Claim C7: the kernel compiler invocation built by `kernel_blob_bin`
passes, with Opt Debug, the widget-creation-tracking flag, the disabled
profile and product defines, and the `flutter_patched_sdk` root; with
Opt Release it passes the AOT and tree-shaking flags, the enabled
product define, and the `flutter_patched_sdk_product` root. -/
theorem kernel_blob_bin_flags (fl : Flutter) (fs : VfsState) (hp : Platform)
    (ha : Arch) (root_dir target_file output depfile dir : FsPath)
    (hdir : fl.engine_dir fs (CompileTarget.new hp ha Opt.Debug) = Except.ok dir)
    (hdart : vfsExists fs (dir ++ ["dart-sdk", "bin", "dart"]) = true)
    (hfront : vfsExists fs (dir ++ ["frontend_server.dart.snapshot"]) = true)
    (hsdkD : vfsExists fs (dir ++ ["flutter_patched_sdk"]) = true)
    (hsdkR : vfsExists fs (dir ++ ["flutter_patched_sdk_product"]) = true) :
    ∃ argsD argsR,
      fl.kernel_blob_bin fs hp ha root_dir target_file output depfile Opt.Debug =
        Except.ok (dir ++ ["dart-sdk", "bin", "dart"], argsD) ∧
      fl.kernel_blob_bin fs hp ha root_dir target_file output depfile Opt.Release =
        Except.ok (dir ++ ["dart-sdk", "bin", "dart"], argsR) ∧
      CmdArg.s "--track-widget-creation" ∈ argsD ∧
      CmdArg.s "-Ddart.vm.profile=false" ∈ argsD ∧
      CmdArg.s "-Ddart.vm.product=false" ∈ argsD ∧
      (∃ l r, argsD =
        l ++ [CmdArg.s "--sdk-root",
          CmdArg.p (dir ++ ["flutter_patched_sdk"])] ++ r) ∧
      CmdArg.s "--aot" ∈ argsR ∧
      CmdArg.s "--tfa" ∈ argsR ∧
      CmdArg.s "-Ddart.vm.product=true" ∈ argsR ∧
      (∃ l r, argsR =
        l ++ [CmdArg.s "--sdk-root",
          CmdArg.p (dir ++ ["flutter_patched_sdk_product"])] ++ r) := by
  have hd : fl.host_file fs hp ha ["dart-sdk", "bin", "dart"] =
      Except.ok (dir ++ ["dart-sdk", "bin", "dart"]) := by
    unfold Flutter.host_file; rw [hdir]; simp [hdart]
  have hf : fl.host_file fs hp ha ["frontend_server.dart.snapshot"] =
      Except.ok (dir ++ ["frontend_server.dart.snapshot"]) := by
    unfold Flutter.host_file; rw [hdir]; simp [hfront]
  have hsD : fl.host_file fs hp ha ["flutter_patched_sdk"] =
      Except.ok (dir ++ ["flutter_patched_sdk"]) := by
    unfold Flutter.host_file; rw [hdir]; simp [hsdkD]
  have hsR : fl.host_file fs hp ha ["flutter_patched_sdk_product"] =
      Except.ok (dir ++ ["flutter_patched_sdk_product"]) := by
    unfold Flutter.host_file; rw [hdir]; simp [hsdkR]
  have hD : fl.kernel_blob_bin fs hp ha root_dir target_file output depfile
      Opt.Debug = Except.ok (dir ++ ["dart-sdk", "bin", "dart"],
        [CmdArg.p (dir ++ ["frontend_server.dart.snapshot"]),
          CmdArg.s "--target=flutter",
          CmdArg.s "--no-print-incremental-dependencies",
          CmdArg.s "--packages", CmdArg.s ".packages",
          CmdArg.s "--output-dill", CmdArg.p output,
          CmdArg.s "--depfile", CmdArg.p depfile,
          CmdArg.s "--sdk-root", CmdArg.p (dir ++ ["flutter_patched_sdk"]),
          CmdArg.s "-Ddart.vm.profile=false",
          CmdArg.s "-Ddart.vm.product=false",
          CmdArg.s "--track-widget-creation",
          CmdArg.p target_file]) := by
    unfold Flutter.kernel_blob_bin Flutter.dart
    rw [hd, hf, hsD]
    rfl
  have hR : fl.kernel_blob_bin fs hp ha root_dir target_file output depfile
      Opt.Release = Except.ok (dir ++ ["dart-sdk", "bin", "dart"],
        [CmdArg.p (dir ++ ["frontend_server.dart.snapshot"]),
          CmdArg.s "--target=flutter",
          CmdArg.s "--no-print-incremental-dependencies",
          CmdArg.s "--packages", CmdArg.s ".packages",
          CmdArg.s "--output-dill", CmdArg.p output,
          CmdArg.s "--depfile", CmdArg.p depfile,
          CmdArg.s "--sdk-root", CmdArg.p (dir ++ ["flutter_patched_sdk_product"]),
          CmdArg.s "-Ddart.vm.profile=false",
          CmdArg.s "-Ddart.vm.product=true",
          CmdArg.s "--aot", CmdArg.s "--tfa",
          CmdArg.p target_file]) := by
    unfold Flutter.kernel_blob_bin Flutter.dart
    rw [hd, hf, hsR]
    rfl
  refine ⟨_, _, hD, hR, by simp, by simp, by simp,
    ⟨[CmdArg.p (dir ++ ["frontend_server.dart.snapshot"]),
        CmdArg.s "--target=flutter",
        CmdArg.s "--no-print-incremental-dependencies",
        CmdArg.s "--packages", CmdArg.s ".packages",
        CmdArg.s "--output-dill", CmdArg.p output,
        CmdArg.s "--depfile", CmdArg.p depfile],
      [CmdArg.s "-Ddart.vm.profile=false",
        CmdArg.s "-Ddart.vm.product=false",
        CmdArg.s "--track-widget-creation",
        CmdArg.p target_file], rfl⟩,
    by simp, by simp, by simp,
    ⟨[CmdArg.p (dir ++ ["frontend_server.dart.snapshot"]),
        CmdArg.s "--target=flutter",
        CmdArg.s "--no-print-incremental-dependencies",
        CmdArg.s "--packages", CmdArg.s ".packages",
        CmdArg.s "--output-dill", CmdArg.p output,
        CmdArg.s "--depfile", CmdArg.p depfile],
      [CmdArg.s "-Ddart.vm.profile=false",
        CmdArg.s "-Ddart.vm.product=true",
        CmdArg.s "--aot", CmdArg.s "--tfa",
        CmdArg.p target_file], rfl⟩⟩

/-- Witness for C7: with a concrete on-disk layout holding all four
host files, both invocations are built with the claimed flag blocks. -/
theorem kernel_blob_bin_flags_witness :
    ∃ argsD argsR,
      Flutter.kernel_blob_bin ⟨["g"], ["f"], ["c"], false⟩
          [(["f", "bin", "internal", "engine.version"], "v"),
            (["c", "engine", "v", "debug", "linux", "x64", "dart-sdk", "bin",
              "dart"], ""),
            (["c", "engine", "v", "debug", "linux", "x64",
              "frontend_server.dart.snapshot"], ""),
            (["c", "engine", "v", "debug", "linux", "x64",
              "flutter_patched_sdk"], ""),
            (["c", "engine", "v", "debug", "linux", "x64",
              "flutter_patched_sdk_product"], "")]
          Platform.Linux Arch.X64 ["r"] ["t"] ["o"] ["d"] Opt.Debug =
        Except.ok (["c", "engine", "v", "debug", "linux", "x64"] ++
          ["dart-sdk", "bin", "dart"], argsD) ∧
      Flutter.kernel_blob_bin ⟨["g"], ["f"], ["c"], false⟩
          [(["f", "bin", "internal", "engine.version"], "v"),
            (["c", "engine", "v", "debug", "linux", "x64", "dart-sdk", "bin",
              "dart"], ""),
            (["c", "engine", "v", "debug", "linux", "x64",
              "frontend_server.dart.snapshot"], ""),
            (["c", "engine", "v", "debug", "linux", "x64",
              "flutter_patched_sdk"], ""),
            (["c", "engine", "v", "debug", "linux", "x64",
              "flutter_patched_sdk_product"], "")]
          Platform.Linux Arch.X64 ["r"] ["t"] ["o"] ["d"] Opt.Release =
        Except.ok (["c", "engine", "v", "debug", "linux", "x64"] ++
          ["dart-sdk", "bin", "dart"], argsR) ∧
      CmdArg.s "--track-widget-creation" ∈ argsD ∧
      CmdArg.s "-Ddart.vm.profile=false" ∈ argsD ∧
      CmdArg.s "-Ddart.vm.product=false" ∈ argsD ∧
      (∃ l r, argsD =
        l ++ [CmdArg.s "--sdk-root",
          CmdArg.p (["c", "engine", "v", "debug", "linux", "x64"] ++
            ["flutter_patched_sdk"])] ++ r) ∧
      CmdArg.s "--aot" ∈ argsR ∧
      CmdArg.s "--tfa" ∈ argsR ∧
      CmdArg.s "-Ddart.vm.product=true" ∈ argsR ∧
      (∃ l r, argsR =
        l ++ [CmdArg.s "--sdk-root",
          CmdArg.p (["c", "engine", "v", "debug", "linux", "x64"] ++
            ["flutter_patched_sdk_product"])] ++ r) :=
  kernel_blob_bin_flags ⟨["g"], ["f"], ["c"], false⟩
    [(["f", "bin", "internal", "engine.version"], "v"),
      (["c", "engine", "v", "debug", "linux", "x64", "dart-sdk", "bin",
        "dart"], ""),
      (["c", "engine", "v", "debug", "linux", "x64",
        "frontend_server.dart.snapshot"], ""),
      (["c", "engine", "v", "debug", "linux", "x64",
        "flutter_patched_sdk"], ""),
      (["c", "engine", "v", "debug", "linux", "x64",
        "flutter_patched_sdk_product"], "")]
    Platform.Linux Arch.X64 ["r"] ["t"] ["o"] ["d"]
    ["c", "engine", "v", "debug", "linux", "x64"]
    rfl rfl rfl rfl rfl

